import Mathlib

/-!
Verification of the context-extraction and product-matching pipeline of the
FreshNutrients chatbot backend.  Messages are modelled as lists of characters
(the code lowercases them with ASCII `str.lower`), contexts as sparse records
of optional fields (Python dicts restricted to the keys this program uses),
and the external product catalog as a function from issued queries to row
lists.  Definitions mirror `app/api/chat.py` (extractor, pH classifier,
accumulator, resolver) and `app/core/llm_service.py` (sufficiency evaluator).
-/

/-- Convert a string literal to the character-list representation used
throughout this development. -/
def cl (s : String) : List Char := s.toList

/-- Word characters in the sense of the `\w` regex class (ASCII fragment). -/
def isWordChar (c : Char) : Bool := c.isAlpha || c.isDigit || c == '_'

/-- Does the text begin with the given pattern?  (Prefix test used to build
substring and word-boundary search.) -/
def leadsWith : List Char → List Char → Bool
  | [], _ => true
  | _ :: _, [] => false
  | a :: as, b :: bs => a == b && leadsWith as bs

/-- Python's `pat in text` substring containment. -/
def containsSub (pat : List Char) : List Char → Bool
  | [] => leadsWith pat []
  | c :: cs => leadsWith pat (c :: cs) || containsSub pat cs

/-- A `\b` word boundary sits between two positions whose word-character
status differs; the edge of the text counts as a non-word position. -/
def boundaryOk (a b : Option Char) : Bool :=
  (match a with | some c => isWordChar c | none => false)
    != (match b with | some c => isWordChar c | none => false)

/-- Does `\b pat \b` match at the current position, given the character
immediately before it (`prev`)? -/
def wbHere (pat : List Char) (prev : Option Char) (text : List Char) : Bool :=
  leadsWith pat text && boundaryOk prev pat.head?
    && boundaryOk pat.getLast? (text.drop pat.length).head?

/-- Search the text for a word-boundary-delimited occurrence of the pattern,
tracking the previous character. -/
def wbSearch (pat : List Char) : Option Char → List Char → Bool
  | prev, [] => wbHere pat prev []
  | prev, c :: cs => wbHere pat prev (c :: cs) || wbSearch pat (some c) cs

/-- Regex search `re.search(r'\b' + pat + r'\b', text)` as a boolean, for patterns that
start and end with word characters (all patterns in this program do). -/
def wbMatch (pat text : List Char) : Bool := wbSearch pat none text

/-- Python `str.title()`: uppercase each letter that follows a non-letter,
lowercase the rest. -/
def titleAux : Bool → List Char → List Char
  | _, [] => []
  | start, c :: cs => (if start then c.toUpper else c.toLower) :: titleAux (!c.isAlpha) cs

/-- Python `str.title()` on a character list. -/
def titleCase (s : List Char) : List Char := titleAux true s

/-- Python `str.capitalize()`: first character uppercased, rest lowercased. -/
def capitalizeP : List Char → List Char
  | [] => []
  | c :: cs => c.toUpper :: cs.map Char.toLower

/-- The conversation context: a Python dict restricted to the keys this
program ever stores.  `none` is an absent key.  `product` is listed because
the sufficiency evaluator reads that key; `ph_unified_product` because the
resolver writes it. -/
structure Ctx where
  product_name : Option (List Char)
  product : Option (List Char)
  crop_type : Option (List Char)
  application_type : Option (List Char)
  problem : Option (List Char)
  ph_issues : Option Bool
  timing_question : Option Bool
  question_type : Option (List Char)
  ph_unified_product : Option Bool
deriving DecidableEq

/-- The empty dict `{}`. -/
def emptyCtx : Ctx := ⟨none, none, none, none, none, none, none, none, none⟩

/-- Python truthiness of `d.get(key)` for a string-valued key: present and
non-empty. -/
def truthyS : Option (List Char) → Bool
  | none => false
  | some s => !s.isEmpty

/-- The stored value of a string key known to be present (`d[key]`). -/
def getS (o : Option (List Char)) : List Char := o.getD []

/-- Python dict update on one key: the newer value wins when present. -/
def pick (old new? : Option α) : Option α :=
  match new? with
  | some v => some v
  | none => old

/-- Python `a.update(b)` and `\x7b**a, **b\x7d`: per-key overwrite, absent keys of `b` leave
`a` untouched. -/
def mergeDict (a b : Ctx) : Ctx where
  product_name := pick a.product_name b.product_name
  product := pick a.product b.product
  crop_type := pick a.crop_type b.crop_type
  application_type := pick a.application_type b.application_type
  problem := pick a.problem b.problem
  ph_issues := pick a.ph_issues b.ph_issues
  timing_question := pick a.timing_question b.timing_question
  question_type := pick a.question_type b.question_type
  ph_unified_product := pick a.ph_unified_product b.ph_unified_product

/-- Keys of the context dict, for stating per-field merge laws. -/
inductive CtxKey where
  | product_name | product | crop_type | application_type | problem
  | ph_issues | timing_question | question_type | ph_unified_product
deriving DecidableEq

/-- Values stored in the context dict. -/
inductive CtxVal where
  | vs (s : List Char)
  | vb (b : Bool)
deriving DecidableEq

/-- Dict lookup by key. -/
def Ctx.get (c : Ctx) : CtxKey → Option CtxVal
  | .product_name => c.product_name.map .vs
  | .product => c.product.map .vs
  | .crop_type => c.crop_type.map .vs
  | .application_type => c.application_type.map .vs
  | .problem => c.problem.map .vs
  | .ph_issues => c.ph_issues.map .vb
  | .timing_question => c.timing_question.map .vb
  | .question_type => c.question_type.map .vs
  | .ph_unified_product => c.ph_unified_product.map .vb

/-- Ordered product-alias list from `extract_context_from_message`. -/
def products : List (List Char) :=
  [cl "afrikelp plus", cl "afrikelp", cl "kelp plus", cl "afrikelp+",
   cl "blac-mag", cl "blacmag", cl "blac mag",
   cl "aquamate", cl "aqua mate", cl "aqua-mate",
   cl "calsap"]

/-- Normalisation of a matched product alias to its canonical name. -/
def productCanonical (p : List Char) : List Char :=
  if p ∈ [cl "afrikelp plus", cl "afrikelp", cl "kelp plus", cl "afrikelp+"] then
    cl "AfriKelp Plus"
  else if p ∈ [cl "blac-mag", cl "blacmag", cl "blac mag"] then cl "BlaC-Mag"
  else if p ∈ [cl "aquamate", cl "aqua mate", cl "aqua-mate"] then cl "AquaMate"
  else if p ∈ [cl "calsap"] then cl "Calsap"
  else titleCase p

/-- First product alias contained in the message, normalised. -/
def productScan (m : List Char) : Option (List Char) :=
  (products.find? (fun p => containsSub p m)).map productCanonical

/-- Ordered crop-synonym list from `extract_context_from_message`. -/
def crops : List (List Char) :=
  [cl "soybeans", cl "soybean", cl "macadamias", cl "macadamia", cl "avocados", cl "avocado",
   cl "seedlings", cl "seedling", cl "pecans", cl "pecan", cl "subtropicals", cl "subtropical",
   cl "tomatoes", cl "tomato", cl "potatoes", cl "potato", cl "tobacco", cl "maize", cl "corn",
   cl "wheat", cl "lettuce", cl "cabbage", cl "onions", cl "onion", cl "carrots", cl "carrot",
   cl "spinach", cl "apples", cl "apple", cl "pears", cl "pear", cl "peaches", cl "peach",
   cl "plums", cl "plum", cl "cherries", cl "cherry", cl "grapes", cl "grape", cl "oranges",
   cl "orange", cl "lemons", cl "lemon", cl "grass", cl "pasture", cl "barley", cl "citrus",
   cl "deciduous", cl "nursery", cl "transplants", cl "transplant", cl "vegetables",
   cl "veggie", cl "fruits", cl "fruit", cl "avos", cl "soyas", cl "soya", cl "legumes",
   cl "legume", cl "beans", cl "bean", cl "peas", cl "pea"]

/-- Normalisation of a matched crop synonym to its canonical crop label
(the if/elif chain of the source, in source order). -/
def cropCanonical (crop : List Char) : List Char :=
  if crop ∈ [cl "vegetables", cl "veggie"] then cl "Tomatoes & Vegetables"
  else if crop ∈ [cl "tomato", cl "tomatoes"] then cl "Tomatoes & Vegetables"
  else if crop ∈ [cl "potato", cl "potatoes"] then cl "Potatoes"
  else if crop ∈ [cl "grass", cl "pasture"] then cl "Grass pastures"
  else if crop ∈ [cl "tobacco"] then cl "Field Tobacco"
  else if crop ∈ [cl "maize", cl "corn"] then cl "Maize & Wheat"
  else if crop ∈ [cl "wheat"] then cl "Maize & Wheat"
  else if crop ∈ [cl "apple", cl "apples", cl "pear", cl "pears", cl "peach", cl "peaches",
      cl "plum", cl "plums", cl "cherry", cl "cherries", cl "grape", cl "grapes", cl "citrus",
      cl "orange", cl "oranges", cl "lemon", cl "lemons", cl "deciduous", cl "fruit",
      cl "fruits"] then cl "Deciduous Fruit"
  else if crop ∈ [cl "macadamia", cl "macadamias", cl "avocado", cl "avocados", cl "avos",
      cl "subtropical", cl "subtropicals"] then cl "Macadamias & Avos (Other Subtropicals)"
  else if crop ∈ [cl "pecan", cl "pecans"] then cl "Pecan Nuts"
  else if crop ∈ [cl "seedling", cl "seedlings", cl "nursery", cl "transplant",
      cl "transplants"] then cl "Seedlings (Tobacco included)"
  else if crop ∈ [cl "soya", cl "soyas", cl "soybean", cl "soybeans", cl "legume",
      cl "legumes", cl "bean", cl "beans", cl "pea", cl "peas"] then
    cl "Soyas and other legumes"
  else capitalizeP crop

/-- Crop extraction: the `nut`/`nuts` whole-word special case first, then the
first whole-word crop-synonym match, normalised. -/
def cropScan (m : List Char) : Option (List Char) :=
  if wbMatch (cl "nuts") m || wbMatch (cl "nut") m then some (cl "Pecan Nuts")
  else (crops.find? (fun c => wbMatch c m)).map cropCanonical

/-- Application-type keyword buckets, in source (insertion) order. -/
def applications : List (List Char × List (List Char)) :=
  [(cl "foliar", [cl "foliar", cl "spray", cl "spraying", cl "leaf", cl "leaves"]),
   (cl "soil", [cl "soil", cl "ground", cl "root", cl "roots", cl "planting"]),
   (cl "water", [cl "water", cl "irrigation", cl "irrigate", cl "hydroponic"])]

/-- First keyword bucket with a substring hit, title-cased. -/
def appScan (m : List Char) : Option (List Char) :=
  (applications.find? (fun a => a.2.any (fun k => containsSub k m))).map
    (fun a => titleCase a.1)

/-- High-pH (alkaline) indicator phrases. -/
def high_ph_indicators : List (List Char) :=
  [cl "alkaline", cl "alkalinity", cl "high ph", cl "ph too high", cl "ph is high",
   cl "salty soil", cl "salt problems", cl "high salinity", cl "lime needs",
   cl "ph above", cl "ph over", cl "basic soil"]

/-- Low-pH (acidic) indicator phrases. -/
def low_ph_indicators : List (List Char) :=
  [cl "acidic", cl "acidity", cl "acid soil", cl "low ph", cl "ph too low",
   cl "ph is low", cl "sour soil", cl "ph below", cl "ph under", cl "acidic soil"]

/-- Generic pH patterns, each matched with `\b` word boundaries. -/
def generic_ph_patterns : List (List Char) :=
  [cl "ph", cl "ph level", cl "ph levels", cl "ph balance", cl "ph imbalance",
   cl "ph testing", cl "ph meter", cl "soil ph", cl "ph adjustment"]

/-- Any high-pH indicator contained in the message? -/
def anyHigh (m : List Char) : Bool := high_ph_indicators.any (fun i => containsSub i m)

/-- Any low-pH indicator contained in the message? -/
def anyLow (m : List Char) : Bool := low_ph_indicators.any (fun i => containsSub i m)

/-- Any generic whole-word pH pattern matching the message? -/
def anyGenericPH (m : List Char) : Bool := generic_ph_patterns.any (fun p => wbMatch p m)

/-- Function `classify_ph_issue` from `chat.py`: specific indicators first, generic
patterns only afterwards. -/
def classify_ph_issue (m : List Char) : Option (List Char) :=
  if anyHigh m then some (cl "Soil Salinity")
  else if anyLow m then some (cl "Soil Acidity")
  else if anyGenericPH m then some (cl "pH Issues")
  else none

/-- Ordered problem-label keyword table (dict insertion order of the source). -/
def problems : List (List Char × List (List Char)) :=
  [(cl "Plant Nutrition",
    [cl "plant nutrition", cl "nutrient deficiency", cl "nutrients needed",
     cl "feeding program", cl "npk requirements", cl "nutritional needs", cl "nutrition of"]),
   (cl "Fertilizer Efficiency",
    [cl "fertilizer efficiency", cl "efficient fertilizer", cl "effectiveness of fertilizer",
     cl "improve efficiency"]),
   (cl "Soil Health",
    [cl "disease control", cl "disease prevention", cl "fungus control", cl "pest control",
     cl "pest management", cl "health problems", cl "soil health"]),
   (cl "Soil Salinity",
    [cl "soil salinity", cl "salt problems", cl "salty soil", cl "high salinity",
     cl "alkaline soil", cl "alkaline", cl "high ph", cl "ph too high"]),
   (cl "Soil Acidity",
    [cl "soil acidity", cl "acid soil", cl "acidic soil", cl "low ph", cl "ph too low",
     cl "sour soil"]),
   (cl "Irrigation efficiency",
    [cl "irrigation efficiency", cl "water efficiency", cl "watering efficiency",
     cl "irrigation problems"]),
   (cl "Shelf life management",
    [cl "shelf life", cl "storage life", cl "preservation", cl "post harvest"])]

/-- First problem label with a keyword substring hit. -/
def problemScan (m : List Char) : Option (List Char) :=
  (problems.find? (fun pr => pr.2.any (fun k => containsSub k m))).map (fun pr => pr.1)

/-- Timing-question keyword list. -/
def timing_keywords : List (List Char) :=
  [cl "timing", cl "when should", cl "what time", cl "schedule", cl "frequency",
   cl "interval", cl "how often", cl "application timing", cl "spray timing",
   cl "fertilizer timing", cl "season", cl "seasonal", cl "before planting",
   cl "after planting", cl "during growing", cl "monthly", cl "weekly", cl "daily",
   cl "days apart", cl "weeks apart", cl "months apart", cl "how many times"]

/-- Function `extract_context_from_message` from `chat.py`: lowercase the message, then
run the product, crop, application-type, pH/problem and timing detectors. -/
def extract_context_from_message (message : List Char) : Ctx :=
  let m := message.map Char.toLower
  let ph := classify_ph_issue m
  { product_name := productScan m
    product := none
    crop_type := cropScan m
    application_type := appScan m
    problem :=
      match ph with
      | some p => some p
      | none => problemScan m
    ph_issues := if ph = some (cl "pH Issues") then some true else none
    timing_question :=
      if timing_keywords.any (fun k => containsSub k m) then some true else none
    question_type :=
      if timing_keywords.any (fun k => containsSub k m) then some (cl "timing") else none
    ph_unified_product := none }

/-- A catalog row (the dict produced by the database layer for each product
record). -/
structure Product where
  application : List Char
  application_type : List Char
  crop : List Char
  directions : List Char
  growth_stage : List Char
  label : List Char
  m_intervention : List Char
  msds : List Char
  notes : List Char
  problem : List Char
  product_name : List Char
  tech_doc : List Char
deriving DecidableEq

/-- The six-field composite key of the resolver's final deduplication,
encoded as the list of its components. -/
def key6 (p : Product) : List (List Char) :=
  [p.product_name, p.crop, p.application, p.growth_stage, p.problem, p.application_type]

/-- The five-field composite key of the generic-pH deduplication (problem
excluded), encoded as the list of its components. -/
def key5 (p : Product) : List (List Char) :=
  [p.product_name, p.crop, p.application, p.growth_stage, p.application_type]

/-- Seen-set deduplication: keep the first occurrence of each key, preserve
order. -/
def dedupAux {K : Type} [DecidableEq K] (key : Product → K) (seen : List K) :
    List Product → List Product
  | [] => []
  | p :: ps =>
    if key p ∈ seen then dedupAux key seen ps
    else p :: dedupAux key (key p :: seen) ps

/-- Deduplication by the five-field pH key. -/
def dedup5 (l : List Product) : List Product := dedupAux key5 [] l

/-- Final deduplication by the six-field key. -/
def dedup6 (l : List Product) : List Product := dedupAux key6 [] l

/-- A catalog query issued by the resolver. -/
inductive Query where
  | byName (q : List Char)
  | byCriteria (crop application_type problem : Option (List Char))
  | byText (q : List Char)
deriving DecidableEq

/-- The external catalog store, answering each query with a row list. -/
def Catalog := Query → List Product

/-- Result of the resolver: the product list, the catalog queries issued (in
order), and the possibly-updated context. -/
structure ResolveOut where
  products : List Product
  queries : List Query
  ctx : Ctx
deriving DecidableEq

/-- Crop-based search (step 3) and application-method search (step 4) of
`get_relevant_products`, followed by the final deduplication; `ps0` is the
value of the `products` variable on entry (always the empty list on every
reachable path). -/
def grpTail (cat : Catalog) (ctx : Ctx) (qs0 : List Query) (ps0 : List Product) :
    ResolveOut :=
  if truthyS ctx.crop_type then
    let has_only_crop := truthyS ctx.crop_type && !truthyS ctx.problem
      && !truthyS ctx.application_type && !truthyS ctx.product_name
    if !has_only_crop then
      let q1 := Query.byCriteria ctx.crop_type ctx.application_type ctx.problem
      let ps1 := cat q1
      if ps1.isEmpty then
        let q2 := Query.byText (getS ctx.crop_type)
        ⟨dedup6 (cat q2), qs0 ++ [q1, q2], ctx⟩
      else ⟨dedup6 ps1, qs0 ++ [q1], ctx⟩
    else ⟨dedup6 ps0, qs0, ctx⟩
  else if truthyS ctx.application_type then
    let q := Query.byCriteria none ctx.application_type none
    ⟨dedup6 (cat q), qs0 ++ [q], ctx⟩
  else ⟨dedup6 ps0, qs0, ctx⟩

/-- Problem-based search (step 2) of `get_relevant_products`: the generic-pH
dual query with its five-field deduplication, or a single criteria query;
non-empty results return immediately (without the final deduplication). -/
def grpProblem (cat : Catalog) (ctx : Ctx) (qs0 : List Query) : ResolveOut :=
  if truthyS ctx.problem then
    if ctx.problem = some (cl "pH Issues") then
      let qa := Query.byCriteria ctx.crop_type ctx.application_type (some (cl "Soil Acidity"))
      let qb := Query.byCriteria ctx.crop_type ctx.application_type (some (cl "Soil Salinity"))
      let unique := dedup5 (cat qa ++ cat qb)
      let ctx2 := { ctx with ph_unified_product := some true }
      if unique.isEmpty then grpTail cat ctx2 (qs0 ++ [qa, qb]) unique
      else ⟨unique, qs0 ++ [qa, qb], ctx2⟩
    else
      let q := Query.byCriteria ctx.crop_type ctx.application_type ctx.problem
      let ps := cat q
      if ps.isEmpty then grpTail cat ctx (qs0 ++ [q]) ps
      else ⟨ps, qs0 ++ [q], ctx⟩
  else grpTail cat ctx qs0 []

/-- Function `get_relevant_products` from `chat.py`: direct product lookup first (an
early return on success, skipping the final deduplication), then the
problem/crop/application-method steps. -/
def get_relevant_products (cat : Catalog) (ctx : Ctx) : ResolveOut :=
  if truthyS ctx.product_name then
    let q := Query.byName (getS ctx.product_name)
    let ps := cat q
    if ps.isEmpty then grpProblem cat ctx [q]
    else ⟨ps, [q], ctx⟩
  else grpProblem cat ctx []

/-- Outcome of the sufficiency evaluation (`_has_sufficient_context`). -/
structure SufficiencyResult where
  sufficient : Bool
  missing_params : List (List Char)
  completeness_score : ℚ
  scenario : List Char
  prompt_message : Option (List Char)
deriving DecidableEq

/-- Function `_has_sufficient_context` from `llm_service.py`, the scenario decision
table in source order.  Note the first rule reads the `product` key. -/
def has_sufficient_context (user_context : Ctx) : SufficiencyResult :=
  if truthyS user_context.product then
    ⟨true, [], 1, cl "product_direct", none⟩
  else if truthyS user_context.crop_type && !truthyS user_context.problem
      && !truthyS user_context.application_type then
    ⟨false, [cl "problem", cl "application_type"], 0.33, cl "crop_only",
      some (cl "I see you mentioned a crop. To provide the best recommendation, could you tell me what specific problem you're trying to solve or what application method you plan to use?")⟩
  else if truthyS user_context.problem && !truthyS user_context.crop_type then
    ⟨true, [cl "crop_type"], 0.67, cl "problem_focused",
      some (cl "I can show you products for this problem. For more targeted recommendations, what crop are you working with?")⟩
  else if truthyS user_context.problem && truthyS user_context.crop_type then
    ⟨true, [], 1, cl "problem_and_crop", none⟩
  else if truthyS user_context.application_type && !truthyS user_context.problem then
    ⟨false, [cl "problem"], 0.33, cl "application_only",
      some (cl "I see you mentioned an application method. What specific problem are you trying to solve?")⟩
  else
    ⟨false, [cl "problem"], 0.0, cl "insufficient",
      some (cl "To help you find the right products, could you tell me what problem you're trying to solve with your crops?")⟩

/-- One step of the history-accumulation loop in the `chat` endpoint: skip
entries without a (non-empty) user message, extract and fold otherwise. -/
def accumStep (acc : Ctx) (e : Option (List Char)) : Ctx :=
  match e with
  | none => acc
  | some s =>
    if s.isEmpty then acc
    else
      let ec := extract_context_from_message s
      if ec = emptyCtx then acc else mergeDict acc ec

/-- The combined context computed by the `chat` endpoint: the persisted log
(newest first) is cut to the five most recent turns by
`get_chat_history(conversation_id, limit=5)`, walked oldest to newest, and
the current message's context and the caller-supplied context are merged on
top. -/
def chatCombinedContext (log : List (Option (List Char))) (msg : List Char)
    (uc : Ctx) : Ctx :=
  let recent := log.take 5
  let conv := recent.reverse.foldl accumStep emptyCtx
  mergeDict (mergeDict conv (extract_context_from_message msg)) uc

/-- History retrieval at the accumulation boundary: an error degrades to the
empty history and raises the logged-warning flag. -/
def historyOrEmpty (r : Except (List Char) (List (Option (List Char)))) :
    List (Option (List Char)) × Bool :=
  match r with
  | Except.ok h => (h, false)
  | Except.error _ => ([], true)

/-- The `chat` endpoint's context accumulation with its try/except boundary:
the combined context plus whether a degradation warning was logged. -/
def chatAccumulate (r : Except (List Char) (List (Option (List Char))))
    (msg : List Char) (uc : Ctx) : Ctx × Bool :=
  let lr := historyOrEmpty r
  (chatCombinedContext lr.1 msg uc, lr.2)

/-- The catch-all wrapper of the database search functions: an exception
becomes the empty result list. -/
def safeSearch (r : Except (List Char) (List Product)) : List Product :=
  match r with
  | Except.ok ps => ps
  | Except.error _ => []

/-- A catalog built from a fallible store, with every query protected by
`safeSearch`. -/
def safeCatalog (fc : Query → Except (List Char) (List Product)) : Catalog :=
  fun q => safeSearch (fc q)

/-! ### Helper lemmas -/

theorem pick_idem (o n : Option α) : pick (pick o n) n = pick o n := by
  cases n <;> rfl

theorem pick_none (o : Option α) : pick o none = o := rfl

theorem mergeDict_empty (a : Ctx) : mergeDict a emptyCtx = a := rfl

theorem mergeDict_self_assoc (a c : Ctx) :
    mergeDict (mergeDict a c) c = mergeDict a c := by
  cases a; cases c; simp [mergeDict, pick_idem]

theorem map_pick_none {α : Type} (x y : Option α) (f : α → CtxVal)
    (h : y.map f = none) : (pick x y).map f = x.map f := by
  cases y with
  | none => rfl
  | some v => simp at h

theorem extract_nil : extract_context_from_message [] = emptyCtx := by decide

theorem accumStep_eq (acc : Ctx) (e : Option (List Char)) :
    accumStep acc e = mergeDict acc (extract_context_from_message (e.getD [])) := by
  cases e with
  | none =>
    show acc = mergeDict acc (extract_context_from_message [])
    rw [extract_nil, mergeDict_empty]
  | some s =>
    show accumStep acc (some s) = _
    unfold accumStep
    by_cases hs : s.isEmpty
    · have : s = [] := by simpa using hs
      subst this
      simp [extract_nil, mergeDict_empty]
    · simp only [hs, if_false, Option.getD]
      by_cases he : extract_context_from_message s = emptyCtx
      · simp [he, mergeDict_empty]
      · simp [he]

theorem foldl_accum (l : List (Option (List Char))) (a : Ctx) :
    l.foldl accumStep a
      = l.foldl (fun acc e => mergeDict acc (extract_context_from_message (e.getD []))) a := by
  induction l generalizing a with
  | nil => rfl
  | cons e t ih => simp [List.foldl_cons, accumStep_eq, ih]

theorem dedupAux_idem {K : Type} [DecidableEq K] (key : Product → K)
    (l : List Product) (seen : List K) :
    dedupAux key seen (dedupAux key seen l) = dedupAux key seen l := by
  induction l generalizing seen with
  | nil => rfl
  | cons p ps ih =>
    by_cases h : key p ∈ seen
    · simp [dedupAux, h, ih]
    · simp [dedupAux, h, ih]

theorem dedup6_idem (l : List Product) : dedup6 (dedup6 l) = dedup6 l :=
  dedupAux_idem key6 l []

/-! ### Concrete inputs used by witnesses and counterexamples -/

/-- A merged context whose only populated field is `product_name`. -/
def ctxProductName : Ctx := { emptyCtx with product_name := some (cl "Calsap") }

/-- A context carrying the `product` key that the evaluator's first rule
actually reads. -/
def ctxProductKey : Ctx := { emptyCtx with product := some (cl "Calsap") }

/-- A context whose only populated field is `crop_type`. -/
def ctxCropOnly : Ctx := { emptyCtx with crop_type := some (cl "Potatoes") }

/-! ### Claim theorems -/

/-- C1: the claim says a merged context with `product_name` set is evaluated
as sufficient=true, scenario product_direct, completeness 1.0 and no prompt.
The code's first rule reads the `product` key instead, which the extraction
and merge pipeline never populates: with only `product_name` set the
evaluator falls through to the insufficient scenario (sufficient=false,
completeness 0.0, with a prompt), while a context carrying the unused
`product` key would have produced product_direct. -/
theorem c1_evaluator_ignores_product_name :
    (extract_context_from_message (cl "tell me about Calsap")).product_name
        = some (cl "Calsap") ∧
    (extract_context_from_message (cl "tell me about Calsap")).product = none ∧
    has_sufficient_context ctxProductName =
      ⟨false, [cl "problem"], 0.0, cl "insufficient",
        some (cl "To help you find the right products, could you tell me what problem you're trying to solve with your crops?")⟩ ∧
    has_sufficient_context ctxProductKey =
      ⟨true, [], 1, cl "product_direct", none⟩ :=
  ⟨by decide, by decide, rfl, rfl⟩

/-- C8: the per-field dict merge used by context accumulation is idempotent
(folding the same extracted context twice equals folding it once), and a key
absent from the later context never erases the accumulated value. -/
theorem c8_merge_idempotent_and_preserving :
    (∀ a c : Ctx, mergeDict (mergeDict a c) c = mergeDict a c) ∧
    (∀ (a c : Ctx) (k : CtxKey), Ctx.get c k = none →
      Ctx.get (mergeDict a c) k = Ctx.get a k) := by
  refine ⟨mergeDict_self_assoc, ?_⟩
  intro a c k h
  cases k <;> exact map_pick_none _ _ _ h

/-- Witness for C8 at concrete contexts: merging the product context onto the
crop context twice equals merging once, and merging an empty context
preserves the absent `problem` field. -/
theorem c8_witness :
    mergeDict (mergeDict ctxCropOnly ctxProductName) ctxProductName
        = mergeDict ctxCropOnly ctxProductName ∧
    Ctx.get (mergeDict ctxCropOnly emptyCtx) CtxKey.problem
        = Ctx.get ctxCropOnly CtxKey.problem :=
  ⟨c8_merge_idempotent_and_preserving.1 ctxCropOnly ctxProductName,
   c8_merge_idempotent_and_preserving.2 ctxCropOnly emptyCtx CtxKey.problem rfl⟩

/-- C5: the pH classifier prefers high-pH indicators, then low-pH indicators,
then the generic whole-word patterns, and returns none otherwise; a message
with a specific indicator is never classified as the generic marker, as the
concrete acidic examples show. -/
theorem c5_ph_classifier_priority :
    (∀ m, anyHigh m = true → classify_ph_issue m = some (cl "Soil Salinity")) ∧
    (∀ m, anyHigh m = false → anyLow m = true →
      classify_ph_issue m = some (cl "Soil Acidity")) ∧
    (∀ m, anyHigh m = false → anyLow m = false → anyGenericPH m = true →
      classify_ph_issue m = some (cl "pH Issues")) ∧
    (∀ m, anyHigh m = false → anyLow m = false → anyGenericPH m = false →
      classify_ph_issue m = none) ∧
    classify_ph_issue (cl "my soil is too acidic") = some (cl "Soil Acidity") ∧
    classify_ph_issue (cl "the ph of my soil is acidic") = some (cl "Soil Acidity") := by
  refine ⟨?_, ?_, ?_, ?_, by decide, by decide⟩
  · intro m h; simp [classify_ph_issue, h]
  · intro m h1 h2; simp [classify_ph_issue, h1, h2]
  · intro m h1 h2 h3; simp [classify_ph_issue, h1, h2, h3]
  · intro m h1 h2 h3; simp [classify_ph_issue, h1, h2, h3]

/-- Witness for C5: one concrete message per decision branch. -/
theorem c5_witness :
    classify_ph_issue (cl "alkaline soil here") = some (cl "Soil Salinity") ∧
    classify_ph_issue (cl "low ph in my field") = some (cl "Soil Acidity") ∧
    classify_ph_issue (cl "soil ph check please") = some (cl "pH Issues") ∧
    classify_ph_issue (cl "hello there") = none :=
  ⟨c5_ph_classifier_priority.1 _ (by decide),
   c5_ph_classifier_priority.2.1 _ (by decide) (by decide),
   c5_ph_classifier_priority.2.2.1 _ (by decide) (by decide) (by decide),
   c5_ph_classifier_priority.2.2.2.1 _ (by decide) (by decide) (by decide)⟩

/-- C10: when pH classification yields the generic marker, extraction stores
the sentinel problem value and sets ph_issues, and the evaluator treats the
sentinel as a fully specified problem: without a crop it lands in the
problem_focused scenario with completeness 0.67 and sufficient=true. -/
theorem c10_generic_ph_sentinel :
    (∀ msg, classify_ph_issue (msg.map Char.toLower) = some (cl "pH Issues") →
      (extract_context_from_message msg).problem = some (cl "pH Issues") ∧
      (extract_context_from_message msg).ph_issues = some true) ∧
    (∀ ctx : Ctx, ctx.problem = some (cl "pH Issues") → truthyS ctx.crop_type = false →
      truthyS ctx.product = false →
      has_sufficient_context ctx =
        ⟨true, [cl "crop_type"], 0.67, cl "problem_focused",
          some (cl "I can show you products for this problem. For more targeted recommendations, what crop are you working with?")⟩) := by
  constructor
  · intro msg h
    refine ⟨?_, ?_⟩ <;> simp [extract_context_from_message, h]
  · intro ctx h1 h2 h3
    have hp : truthyS ctx.problem = true := by rw [h1]; decide
    simp [has_sufficient_context, h2, h3, hp]

/-- Witness for C10 on the message "what is a good ph". -/
theorem c10_witness :
    ((extract_context_from_message (cl "what is a good ph")).problem
        = some (cl "pH Issues") ∧
     (extract_context_from_message (cl "what is a good ph")).ph_issues = some true) ∧
    has_sufficient_context (extract_context_from_message (cl "what is a good ph")) =
      ⟨true, [cl "crop_type"], 0.67, cl "problem_focused",
        some (cl "I can show you products for this problem. For more targeted recommendations, what crop are you working with?")⟩ :=
  ⟨c10_generic_ph_sentinel.1 (cl "what is a good ph") (by decide),
   c10_generic_ph_sentinel.2 (extract_context_from_message (cl "what is a good ph"))
     (by decide) (by decide) (by decide)⟩

theorem isEmpty_false_of_ne_nil {α : Type} {l : List α} (h : l ≠ []) :
    l.isEmpty = false := by
  cases l with
  | nil => exact absurd rfl h
  | cons a t => rfl

theorem truthyS_none : truthyS none = false := rfl

/-- A sample catalog row. -/
def prodA : Product :=
  ⟨cl "5L/ha", cl "Foliar", cl "Potatoes", cl "dirA", cl "Vegetative", cl "labelA",
   cl "", cl "msdsA", cl "notesA", cl "Soil Acidity", cl "AfriKelp Plus", cl "techA"⟩

/-- A second sample catalog row with a different composite key. -/
def prodB : Product :=
  ⟨cl "2L/ha", cl "Soil", cl "Maize & Wheat", cl "dirB", cl "Flowering", cl "labelB",
   cl "", cl "msdsB", cl "notesB", cl "Soil Salinity", cl "BlaC-Mag", cl "techB"⟩

/-- A catalog that answers every query with one row. -/
def catAlways : Catalog := fun _ => [prodA]

/-- A catalog that answers every query with no rows. -/
def catEmpty : Catalog := fun _ => []

/-- A catalog whose by-name search returns the same row twice. -/
def catDup : Catalog := fun q =>
  match q with
  | Query.byName _ => [prodA, prodA]
  | _ => []

/-- A catalog whose application-type criteria search returns duplicated rows. -/
def catDupApp : Catalog := fun q =>
  match q with
  | Query.byCriteria none (some _) none => [prodA, prodA, prodB]
  | _ => []

/-- A catalog serving the two generic-pH criteria queries, with one row
shared between the acidity and salinity labels. -/
def catPH : Catalog := fun q =>
  match q with
  | Query.byCriteria _ _ (some p) =>
    if p = cl "Soil Acidity" then [prodA]
    else if p = cl "Soil Salinity" then [prodA, prodB]
    else []
  | _ => []

/-- A context whose only populated field is the generic pH problem marker. -/
def ctxPhOnly : Ctx := { emptyCtx with problem := some (cl "pH Issues"), ph_issues := some true }

/-- A context with the generic pH marker and a crop. -/
def ctxPhCrop : Ctx :=
  { emptyCtx with
      problem := some (cl "pH Issues")
      ph_issues := some true
      crop_type := some (cl "Potatoes") }

/-- A context whose only populated field is `application_type`. -/
def ctxAppOnly : Ctx := { emptyCtx with application_type := some (cl "Soil") }

/-- C6: with a crop and nothing else, the resolver returns the empty product
list while issuing no catalog query at all, and the evaluator lands in the
crop_only scenario: insufficient, completeness 0.33, prompting for a problem
or an application method. -/
theorem c6_crop_only_fixed_point (cat : Catalog) (ctx : Ctx)
    (hc : truthyS ctx.crop_type = true) (hp : ctx.problem = none)
    (ha : ctx.application_type = none) (hn : ctx.product_name = none)
    (hk : ctx.product = none) :
    (get_relevant_products cat ctx).products = [] ∧
    (get_relevant_products cat ctx).queries = [] ∧
    has_sufficient_context ctx =
      ⟨false, [cl "problem", cl "application_type"], 0.33, cl "crop_only",
        some (cl "I see you mentioned a crop. To provide the best recommendation, could you tell me what specific problem you're trying to solve or what application method you plan to use?")⟩ := by
  have hres : get_relevant_products cat ctx = ⟨[], [], ctx⟩ := by
    simp [get_relevant_products, grpProblem, grpTail, hn, hp, ha, hc, truthyS_none,
      dedup6, dedupAux]
  refine ⟨by rw [hres], by rw [hres], ?_⟩
  simp [has_sufficient_context, hk, hp, ha, hc, truthyS_none]

/-- Witness for C6: the crop-only context against a catalog that would answer
any query, showing none is issued. -/
theorem c6_witness :
    (get_relevant_products catAlways ctxCropOnly).products = [] ∧
    (get_relevant_products catAlways ctxCropOnly).queries = [] ∧
    has_sufficient_context ctxCropOnly =
      ⟨false, [cl "problem", cl "application_type"], 0.33, cl "crop_only",
        some (cl "I see you mentioned a crop. To provide the best recommendation, could you tell me what specific problem you're trying to solve or what application method you plan to use?")⟩ :=
  c6_crop_only_fixed_point catAlways ctxCropOnly rfl rfl rfl rfl rfl

/-- C4 (amended): when the problem field is the generic pH marker and no
direct-product lookup fires, the problem branch issues the Soil Acidity and
Soil Salinity criteria queries (each carrying crop_type/application_type),
concatenates acidity results before salinity results and deduplicates them
by the five-field key; when that union is non-empty the resolver returns it
with exactly those two queries issued and the unified-pH marker set. -/
theorem c4_generic_ph_dual_query (cat : Catalog) (ctx : Ctx)
    (hp : ctx.problem = some (cl "pH Issues"))
    (hn : truthyS ctx.product_name = false)
    (hne : dedup5 (cat (Query.byCriteria ctx.crop_type ctx.application_type (some (cl "Soil Acidity")))
        ++ cat (Query.byCriteria ctx.crop_type ctx.application_type (some (cl "Soil Salinity")))) ≠ []) :
    get_relevant_products cat ctx =
      ⟨dedup5 (cat (Query.byCriteria ctx.crop_type ctx.application_type (some (cl "Soil Acidity")))
          ++ cat (Query.byCriteria ctx.crop_type ctx.application_type (some (cl "Soil Salinity")))),
       [Query.byCriteria ctx.crop_type ctx.application_type (some (cl "Soil Acidity")),
        Query.byCriteria ctx.crop_type ctx.application_type (some (cl "Soil Salinity"))],
       { ctx with ph_unified_product := some true }⟩ := by
  have hpt : truthyS ctx.problem = true := by rw [hp]; decide
  have h0 : truthyS (some (cl "pH Issues")) = true := by decide
  have hE := isEmpty_false_of_ne_nil hne
  simp [get_relevant_products, hn, grpProblem, hpt, hp, h0, hE]

/-- Witness for C4: the pH-only context against a catalog serving both
criteria queries, with one row listed under both problem labels. -/
theorem c4_witness :
    get_relevant_products catPH ctxPhOnly =
      ⟨dedup5 (catPH (Query.byCriteria none none (some (cl "Soil Acidity")))
          ++ catPH (Query.byCriteria none none (some (cl "Soil Salinity")))),
       [Query.byCriteria none none (some (cl "Soil Acidity")),
        Query.byCriteria none none (some (cl "Soil Salinity"))],
       { ctxPhOnly with ph_unified_product := some true }⟩ :=
  c4_generic_ph_dual_query catPH ctxPhOnly rfl rfl (by decide)

/-- Counterexample for C4 as stated: with the generic pH marker plus a crop
against an empty catalog, the two pH queries come back empty and resolution
falls through to the crop branch, so four catalog queries are issued, not
exactly two. -/
theorem c4_counterexample :
    ((get_relevant_products catEmpty ctxPhCrop).queries).length ≠ 2 := by decide

/-- C3 (amended): the final six-field deduplication protects the crop and
application-method branches (their output is dedup-invariant), but the
direct-product branch returns the raw by-name rows unchanged, skipping it. -/
theorem c3_final_dedup_branch_dependent :
    (∀ (cat : Catalog) (ctx : Ctx), truthyS ctx.product_name = true →
      cat (Query.byName (getS ctx.product_name)) ≠ [] →
      (get_relevant_products cat ctx).products
        = cat (Query.byName (getS ctx.product_name))) ∧
    (∀ (cat : Catalog) (ctx : Ctx), truthyS ctx.product_name = false →
      truthyS ctx.problem = false →
      dedup6 (get_relevant_products cat ctx).products
        = (get_relevant_products cat ctx).products) := by
  constructor
  · intro cat ctx h1 h2
    have hE := isEmpty_false_of_ne_nil h2
    simp [get_relevant_products, h1, hE]
  · intro cat ctx h1 h2
    have hres : get_relevant_products cat ctx = grpTail cat ctx [] [] := by
      simp [get_relevant_products, h1, grpProblem, h2]
    rw [hres]
    cases hc : truthyS ctx.crop_type with
    | false =>
      cases hap : truthyS ctx.application_type with
      | false => simp [grpTail, hc, hap, dedup6, dedupAux]
      | true => simp [grpTail, hc, hap, dedup6_idem]
    | true =>
      cases hap : truthyS ctx.application_type with
      | false => simp [grpTail, hc, hap, h1, h2, dedup6, dedupAux]
      | true =>
        by_cases hq : cat (Query.byCriteria ctx.crop_type ctx.application_type ctx.problem) = []
        · simp [grpTail, hc, hap, h1, h2, hq, dedup6_idem]
        · have hE := isEmpty_false_of_ne_nil hq
          simp [grpTail, hc, hap, h1, h2, hE, dedup6_idem]

/-- Witness for C3: the by-name branch hands back the duplicated catalog
answer untouched, while the application-method branch output is already
deduplicated. -/
theorem c3_witness :
    (get_relevant_products catDup ctxProductName).products
        = catDup (Query.byName (getS ctxProductName.product_name)) ∧
    dedup6 (get_relevant_products catDupApp ctxAppOnly).products
        = (get_relevant_products catDupApp ctxAppOnly).products :=
  ⟨c3_final_dedup_branch_dependent.1 catDup ctxProductName rfl (by decide),
   c3_final_dedup_branch_dependent.2 catDupApp ctxAppOnly rfl rfl⟩

/-- Counterexample for C3 as stated: a direct-product query whose catalog
answer contains an exact duplicate is returned with the duplicate intact, so
the final deduplication is not applied to every branch. -/
theorem c3_counterexample :
    (get_relevant_products catDup ctxProductName).products
      ≠ dedup6 ((get_relevant_products catDup ctxProductName).products) := by decide

/-- The claim's accumulation, following the spec's words for comparison with
the code: the fold of the extracted contexts of ALL historical turns of the
conversation (oldest to newest, per-field overwrite), then the current
message's context, then the explicit caller-supplied fields. -/
def specAccumulateAllTurns (log : List (Option (List Char))) (msg : List Char)
    (uc : Ctx) : Ctx :=
  mergeDict (mergeDict
    (log.reverse.foldl
      (fun a e => mergeDict a (extract_context_from_message (e.getD []))) emptyCtx)
    (extract_context_from_message msg)) uc

/-- A persisted conversation log (newest first) with six turns; only the
oldest turn mentions a crop. -/
def logSix : List (Option (List Char)) :=
  [some (cl "hi"), some (cl "hi"), some (cl "hi"), some (cl "hi"), some (cl "hi"),
   some (cl "potatoes")]

/-- C2 (amended): the merged context equals the fold of the extracted
contexts of the five most recent historical turns (oldest to newest,
per-field overwrite, turns without a user message contributing nothing),
then the current message's context, then the caller-supplied explicit fields
with overwrite — the history is capped at five turns by the retrieval call,
not "all historical turns". -/
theorem c2_accumulation_capped_at_five (log : List (Option (List Char)))
    (msg : List Char) (uc : Ctx) :
    chatCombinedContext log msg uc =
      mergeDict (mergeDict
        ((log.take 5).reverse.foldl
          (fun a e => mergeDict a (extract_context_from_message (e.getD []))) emptyCtx)
        (extract_context_from_message msg)) uc := by
  show mergeDict (mergeDict ((log.take 5).reverse.foldl accumStep emptyCtx)
      (extract_context_from_message msg)) uc = _
  rw [foldl_accum]

/-- Counterexample for C2 as stated: with six persisted turns whose oldest
turn sets the crop, the code's merged context differs from the fold over all
historical turns, because only the five most recent turns are retrieved. -/
theorem c2_counterexample :
    chatCombinedContext logSix (cl "hi") emptyCtx
      ≠ specAccumulateAllTurns logSix (cl "hi") emptyCtx := by decide

/-- C7 (amended): a whole-word "nut"/"nuts" always yields the pecan-nut crop
label ahead of the general crop list; without a whole-word "nut", "nuts",
"pecan" or "pecans" the pecan-nut label is never assigned (a message where
"nut" occurs only inside a longer word can still receive the label through
an explicit pecan synonym); in particular "I need nutrition advice" sets no
crop at all. -/
theorem c7_nut_word_boundary :
    (∀ msg, (wbMatch (cl "nuts") (msg.map Char.toLower)
        || wbMatch (cl "nut") (msg.map Char.toLower)) = true →
      (extract_context_from_message msg).crop_type = some (cl "Pecan Nuts")) ∧
    (∀ msg, wbMatch (cl "nuts") (msg.map Char.toLower) = false →
      wbMatch (cl "nut") (msg.map Char.toLower) = false →
      wbMatch (cl "pecans") (msg.map Char.toLower) = false →
      wbMatch (cl "pecan") (msg.map Char.toLower) = false →
      (extract_context_from_message msg).crop_type ≠ some (cl "Pecan Nuts")) ∧
    (extract_context_from_message (cl "I need nutrition advice")).crop_type = none := by
  refine ⟨?_, ?_, by decide⟩
  · intro msg h
    simp [extract_context_from_message, cropScan, h]
  · intro msg h1 h2 h3 h4
    have hscan : (extract_context_from_message msg).crop_type
        = (crops.find? (fun c => wbMatch c (msg.map Char.toLower))).map cropCanonical := by
      simp [extract_context_from_message, cropScan, h1, h2]
    rw [hscan]
    intro hcontra
    rcases Option.map_eq_some'.mp hcontra with ⟨c, hfind, hcan⟩
    have hmem := List.mem_of_find?_eq_some hfind
    have hpred := List.find?_some hfind
    have hall : crops.all (fun c => !(cropCanonical c == cl "Pecan Nuts")
        || (c == cl "pecans") || (c == cl "pecan")) = true := by decide
    have hc := List.all_eq_true.mp hall c hmem
    simp only [hcan, beq_self_eq_true, Bool.not_true, Bool.false_or, Bool.or_eq_true,
      beq_iff_eq] at hc
    rcases hc with hc | hc
    · rw [hc] at hpred
      exact absurd hpred (by rw [h3]; simp)
    · rw [hc] at hpred
      exact absurd hpred (by rw [h4]; simp)

/-- Witness for C7: a whole-word "nuts" message receiving the pecan-nut
label, and an unrelated message that cannot receive it. -/
theorem c7_witness :
    (extract_context_from_message (cl "what about nuts")).crop_type
        = some (cl "Pecan Nuts") ∧
    (extract_context_from_message (cl "hello")).crop_type ≠ some (cl "Pecan Nuts") :=
  ⟨c7_nut_word_boundary.1 (cl "what about nuts") (by decide),
   c7_nut_word_boundary.2.1 (cl "hello") (by decide) (by decide) (by decide) (by decide)⟩

/-- Counterexample for C7 as stated: in "nutrition for pecans" the substring
"nut" occurs only inside the longer word "nutrition" (no whole-word match),
yet extraction assigns the pecan-nut crop label via the "pecans" synonym. -/
theorem c7_counterexample :
    containsSub (cl "nut") ((cl "nutrition for pecans").map Char.toLower) = true ∧
    wbMatch (cl "nuts") ((cl "nutrition for pecans").map Char.toLower) = false ∧
    wbMatch (cl "nut") ((cl "nutrition for pecans").map Char.toLower) = false ∧
    (extract_context_from_message (cl "nutrition for pecans")).crop_type
      = some (cl "Pecan Nuts") := by
  refine ⟨by decide, by decide, by decide, by decide⟩

theorem grpTail_nil_cat (ctx : Ctx) (qs0 : List Query) :
    (grpTail (fun _ => []) ctx qs0 []).products = [] := by
  cases hc : truthyS ctx.crop_type with
  | false =>
    cases hap : truthyS ctx.application_type with
    | false => simp [grpTail, hc, hap, dedup6, dedupAux]
    | true => simp [grpTail, hc, hap, dedup6, dedupAux]
  | true =>
    by_cases ho : (truthyS ctx.crop_type && !truthyS ctx.problem
        && !truthyS ctx.application_type && !truthyS ctx.product_name) = true
    · simp only [grpTail, hc, ho, dedup6, dedupAux]
      simp [apply_ite ResolveOut.products]
    · have ho' := Bool.of_not_eq_true ho
      simp only [grpTail, hc, ho', dedup6, dedupAux]
      simp [apply_ite ResolveOut.products]

theorem grpProblem_nil_cat (ctx : Ctx) (qs0 : List Query) :
    (grpProblem (fun _ => []) ctx qs0).products = [] := by
  cases hp : truthyS ctx.problem with
  | false => simpa [grpProblem, hp] using grpTail_nil_cat ctx qs0
  | true =>
    by_cases hph : ctx.problem = some (cl "pH Issues")
    · simpa [grpProblem, hp, hph, dedup5, dedupAux] using
        grpTail_nil_cat { ctx with ph_unified_product := some true } (qs0 ++
          [Query.byCriteria ctx.crop_type ctx.application_type (some (cl "Soil Acidity")),
           Query.byCriteria ctx.crop_type ctx.application_type (some (cl "Soil Salinity"))])
    · simpa [grpProblem, hp, hph] using grpTail_nil_cat ctx
        (qs0 ++ [Query.byCriteria ctx.crop_type ctx.application_type ctx.problem])

theorem grp_nil_cat (ctx : Ctx) :
    (get_relevant_products (fun _ => []) ctx).products = [] := by
  cases hn : truthyS ctx.product_name with
  | false => simpa [get_relevant_products, hn] using grpProblem_nil_cat ctx []
  | true =>
    simpa [get_relevant_products, hn] using
      grpProblem_nil_cat ctx [Query.byName (getS ctx.product_name)]

/-- C9: collaborator failures degrade to empty results instead of
propagating: a failing history read yields the same combined context as an
empty history (with the warning logged), the database search wrappers turn a
raised error into the empty row list, and the resolver over an all-failing
catalog still completes, returning the empty product list. -/
theorem c9_failure_degrades_to_empty :
    (∀ (e : List Char) (msg : List Char) (uc : Ctx),
      chatAccumulate (Except.error e) msg uc = (chatCombinedContext [] msg uc, true)) ∧
    (∀ (fc : Query → Except (List Char) (List Product)) (q : Query) (e : List Char),
      fc q = Except.error e → safeCatalog fc q = []) ∧
    (∀ (f : Query → List Char) (ctx : Ctx),
      (get_relevant_products (safeCatalog (fun q => Except.error (f q))) ctx).products
        = []) := by
  refine ⟨fun e msg uc => rfl, ?_, ?_⟩
  · intro fc q e h
    simp [safeCatalog, safeSearch, h]
  · intro f ctx
    have hcz : safeCatalog (fun q => Except.error (f q)) = (fun _ => ([] : List Product)) :=
      funext (fun q => rfl)
    rw [hcz]
    exact grp_nil_cat ctx

/-- Witness for C9: a concrete failing history store, a concrete failing
catalog query, and a full resolution over an all-failing catalog. -/
theorem c9_witness :
    chatAccumulate (Except.error (cl "timeout")) (cl "hi") emptyCtx
        = (chatCombinedContext [] (cl "hi") emptyCtx, true) ∧
    safeCatalog (fun _ => Except.error (cl "connection refused"))
        (Query.byName (cl "Calsap")) = [] ∧
    (get_relevant_products
        (safeCatalog (fun q => Except.error ((fun _ => cl "down") q))) ctxPhCrop).products
      = [] :=
  ⟨c9_failure_degrades_to_empty.1 (cl "timeout") (cl "hi") emptyCtx,
   c9_failure_degrades_to_empty.2.1 (fun _ => Except.error (cl "connection refused"))
     (Query.byName (cl "Calsap")) (cl "connection refused") rfl,
   c9_failure_degrades_to_empty.2.2 (fun _ => cl "down") ctxPhCrop⟩
